import Mathlib

/-!
Verification of the LogicCart website-change-request decision engine.

The definitions below are a shallow embedding of the Python sources
`src/lambdas/decision-engine/handler.py`, `nova_lite_analyzer.py` and
`error_handling.py`.  Python floats are modelled as rationals, Python
lists as `List`, optional dict entries as `Option`, and the external
collaborators (S3 URL signer, wall clock, Bedrock vision call, JSON
parser) are passed in as explicit parameters.  A Python function that
can raise is modelled with `Except`/`Option`.
-/

namespace LogicCart

/-! ## Python semantics helpers -/

/-- Python slice `l[:n]` where `n` may be negative (`l[:-k]` drops the
last `k` elements). -/
def pySliceTo (l : List α) (n : Int) : List α :=
  if 0 ≤ n then l.take n.toNat else l.take (l.length - (-n).toNat)

/-- Python `needle in hay` on strings: substring containment. -/
def pyIn (needle hay : String) : Bool :=
  decide (needle.data <:+: hay.data)

/-- Python `s.endswith(suffix)`. -/
def pyEndsWith (s suffix : String) : Bool :=
  suffix.data.isSuffixOf s.data

/-- Python `s.lower()` (ASCII case folding, as in all strings used here). -/
def pyLower (s : String) : String := ⟨s.data.map Char.toLower⟩

/-- Python `s.upper()`. -/
def pyUpper (s : String) : String := ⟨s.data.map Char.toUpper⟩

/-- Python `s.strip()`: drop leading and trailing whitespace. -/
def pyStrip (s : String) : String :=
  ⟨(s.data.dropWhile Char.isWhitespace).reverse.dropWhile Char.isWhitespace |>.reverse⟩

/-- Python truthiness of an optional string (`None` and `""` are falsy). -/
def optStrTruthy : Option String → Bool
  | none => false
  | some s => s ≠ ""

/-- Python `f"{x}"` for a value that may be `None`. -/
def pyShowOpt : Option String → String
  | none => "None"
  | some s => s

/-- Python `str.title()` for one word: first character upper, rest lower
(all identifiers fed to it here are single ASCII words). -/
def pyTitleWord (s : String) : String :=
  match s.data with
  | [] => ""
  | c :: cs => ⟨c.toUpper :: cs.map Char.toLower⟩

/-! ## Data model (handler.py / tools.py shapes) -/

/-- A URL as the decision engine sees it: the raw string plus the value of
`urlparse(raw).netloc` (`none` models `urlparse` raising, the
`except Exception` branches of the two validators). -/
structure Url where
  raw : String
  host : Option String
deriving DecidableEq, Repr

/-- An uploaded-image reference (subset of the Asset shape that the
decision engine reads). -/
structure Asset where
  s3Key : Option String
  filename : Option String
deriving DecidableEq, Repr

/-- A ticket as read by the decision engine (`ticket.get(...)` fields;
`none` models an absent key). -/
structure Ticket where
  id : Option String
  request_type : Option String
  title : Option String
  description : Option String
  requester_name : Option String
  requester_email : Option String
  page_area : Option String
  launch_date : Option String
  copy_en : Option String
  copy_zh : Option String
  created_at : Option String
  department : Option String
  notes : Option String
  target_url : Option Url
  page_urls : List Url
  assets : List Asset
deriving DecidableEq, Repr

inductive DecisionKind
  | APPROVE
  | REJECT
  | NEEDS_INFO
deriving DecidableEq, Repr

structure Email where
  subject : String
  body : String
deriving DecidableEq, Repr

/-- The decision record built by the handler response helpers. -/
structure Decision where
  decision : DecisionKind
  reasons : List String
  confidence : ℚ
  analysis_method : String
  email : Option Email
deriving DecidableEq, Repr

/-! ## Normalized vision analysis (typed shape consumed by the handler) -/

structure VisualQuality where
  score : ℚ
  issues : List String
deriving DecidableEq, Repr

structure AccessibilityInfo where
  contrast_adequate : Bool
  text_readable : Bool
deriving DecidableEq, Repr

structure ContentAppropriateness where
  appropriate : Bool
  concerns : List String
deriving DecidableEq, Repr

structure OverallCompliance where
  compliant : Bool
  confidence : ℚ
  summary : String
deriving DecidableEq, Repr

/-- A vision analysis record as consumed by `_visual_policy_decision` and
`_combine_analyses` (the `error` flag is the `"error": True` key of
`_create_error_analysis` results). -/
structure Analysis where
  colors_detected : List String
  logo_present : Bool
  brand_elements : List String
  text_content : List String
  visual_quality : VisualQuality
  accessibility : AccessibilityInfo
  content_appropriateness : ContentAppropriateness
  overall_compliance : OverallCompliance
  error : Bool
deriving DecidableEq, Repr

/-! ## Configuration (environment defaults of handler.py / error_handling.py) -/

/-- Default `APPROVED_DOMAINS` in both handler.py and error_handling.py. -/
def approvedDomains : List String :=
  ["logicart.com", "shop.logicart.com", "blog.logicart.com", "support.logicart.com"]

/-- Default `REDIRECT_HOST_HINTS` in handler.py. -/
def redirectHostHints : List String :=
  ["bit.ly", "t.co", "lnkd.in", "goo.gl", "is.gd", "tinyurl.com", "redirect", "tracker"]

/-! ## External collaborators threaded through the handler -/

/-- The impure collaborators of the handler: `get_banner_image_url`
(presigned S3 URL or `None`) and the formatted `datetime.utcnow()`
strings interpolated into email bodies. -/
structure Ctx where
  getBannerImageUrl : String → Option String
  nowStr : String

/-! ## handler.py: small pure utilities -/

/-- `_trim_to_fit(items, max_items)`: keep truthy (non-empty) strings,
then Python-slice to `max_items` (which the caller may make negative). -/
def trim_to_fit (items : List String) (maxItems : Int) : List String :=
  pySliceTo (items.filter (fun s => s ≠ "")) maxItems

/-- `_looks_like_quality_blocker(text)`. -/
def looks_like_quality_blocker (text : String) : Bool :=
  let t := pyLower text
  (["blurry", "blur", "pixelation", "pixelated", "compression", "artifact",
    "low resolution", "poor resolution", "noisy", "distortion"]).any
    (fun k => pyIn k t)

/-! ## handler.py: URL/Domain Validator (`_validate_urls`) -/

/-- The approved-host test of `_validate_urls`: exact allowlist host or any
subdomain of an allowlisted domain. -/
def handlerHostApproved (host : String) : Bool :=
  approvedDomains.contains host ||
    approvedDomains.any (fun d => host == d || pyEndsWith host ("." ++ d))

structure UrlStatus where
  reject_reasons : List String
  needs_info_reasons : List String
deriving DecidableEq, Repr

/-- Per-URL contribution of the `_validate_urls` loop body. -/
def validateUrlStep (url : Url) : UrlStatus :=
  if url.raw = "" then ⟨[], []⟩
  else
    match url.host with
    | none => ⟨[], ["URL needs verification: " ++ url.raw]⟩
    | some netloc =>
      let host := pyLower netloc
      if ¬ handlerHostApproved host then
        ⟨["Non-approved URL domain: " ++ url.raw], []⟩
      else if redirectHostHints.any (fun hint => pyIn hint host)
              && ¬ approvedDomains.contains host then
        ⟨[], ["URL might be an external redirect: " ++ url.raw]⟩
      else ⟨[], []⟩

/-- `_validate_urls(urls)`: reasons accumulate in iteration order. -/
def validate_urls : List Url → UrlStatus
  | [] => ⟨[], []⟩
  | u :: rest =>
    let s := validateUrlStep u
    let r := validate_urls rest
    ⟨s.reject_reasons ++ r.reject_reasons,
     s.needs_info_reasons ++ r.needs_info_reasons⟩

/-! ## handler.py: email builders -/

/-- `_get_image_urls_section(ticket)`. -/
def get_image_urls_section (ctx : Ctx) (t : Ticket) : String :=
  let image_urls := t.assets.filterMap (fun a =>
    match a.s3Key with
    | none => none
    | some k =>
      match ctx.getBannerImageUrl k with
      | none => none
      | some u =>
        if u = "" then none
        else some ("• " ++ (a.filename.getD "Image") ++ ": " ++ u))
  if image_urls ≠ [] then String.intercalate "\n" image_urls
  else "• No images attached"

/-- The `page_urls` rendering shared by the approve/feature emails: a
non-empty list is comma-joined, otherwise the `(from form)` placeholder
(the `isinstance(page_urls, str)` branch cannot arise for the typed
ticket shape produced by `tools.get_ticket`). -/
def pageUrlsText (t : Ticket) : String :=
  if t.page_urls ≠ [] then String.intercalate ", " (t.page_urls.map Url.raw)
  else "(from form)"

/-- `_banner_approve_email(ticket, reasons)`. -/
def banner_approve_email (ctx : Ctx) (t : Ticket) (reasons : List String) : Email :=
  let subject := "New Request " ++ t.id.getD "" ++ " - Approved"
  let bullet := String.intercalate "\n" ((trim_to_fit reasons 5).map (fun r => "• " ++ r))
  let body :=
    "Hello " ++ t.requester_name.getD "there" ++ ",\n\n" ++
    "Great news! Your new banner request has been approved and is ready for implementation.\n\n" ++
    "Approval Summary:\n" ++ bullet ++ "\n\n" ++
    "Next Steps:\n" ++
    "• Your banner will be implemented by your target go-live date.\n" ++
    "• You\x27ll receive a confirmation email once it\x27s live on the website\n" ++
    "• No further action is required from you at this time\n\n" ++
    "Implementation Details:\n" ++
    "• Impacted Page Area: " ++ t.page_area.getD "" ++ "\n" ++
    "• Impacted Page URL(s): " ++ pageUrlsText t ++ "\n" ++
    "• Target Go-live Date: " ++ t.launch_date.getD "" ++ "\n" ++
    "• Description: " ++ t.description.getD "" ++ "\n" ++
    "• English Content: " ++ pyShowOpt t.copy_en ++ "\n" ++
    "• Chinese Content: " ++ pyShowOpt t.copy_zh ++ "\n\n" ++
    "Approved Images:\n" ++ get_image_urls_section ctx t ++ "\n\n" ++
    "Questions?\n" ++
    "Contact us at dev@logiccart.com\n\n" ++
    "Best regards,\n" ++
    "LogicCart Web Development Team\n\n" ++
    "---\n" ++
    "Request ID: " ++ t.id.getD "" ++ "\n" ++
    "Approved: " ++ ctx.nowStr ++ " UTC\n"
  ⟨subject, body⟩

/-- The page-URL line used by the needs-info/reject banner emails. -/
def pageUrlsLine (t : Ticket) : String :=
  if t.page_urls ≠ [] then String.intercalate ", " (t.page_urls.map Url.raw)
  else "(from form)"

/-- `_banner_needs_info_email(ticket, reasons)`. -/
def banner_needs_info_email (ctx : Ctx) (t : Ticket) (reasons : List String) : Email :=
  let subject := "New Request " ++ t.id.getD "" ++ " - Additional Information Required"
  let bullet := String.intercalate "\n" ((trim_to_fit reasons 5).map (fun r => "• " ++ r))
  let body :=
    "Hello " ++ t.requester_name.getD "there" ++ ",\n\n" ++
    "Thank you for submitting your new banner request. To finalize approval, please review:\n\n" ++
    bullet ++ "\n\n" ++
    "Implementation Details:\n" ++
    "• Impacted Page Area: " ++ t.page_area.getD "(from form)" ++ "\n" ++
    "• Impacted Page URL(s): " ++ pageUrlsLine t ++ "\n" ++
    "• Target Go-live Date: " ++ t.launch_date.getD "(from form)" ++ "\n" ++
    "• Description: " ++ t.description.getD "" ++ "\n" ++
    "• English Content: " ++ pyShowOpt t.copy_en ++ "\n" ++
    "• Chinese Content: " ++ pyShowOpt t.copy_zh ++ "\n\n" ++
    "Submitted Images:\n" ++ get_image_urls_section ctx t ++ "\n\n" ++
    "Once updated or clarified, please resubmit and we’ll complete the review.\n\n" ++
    "Questions?\n" ++
    "Contact us at dev@logiccart.com\n\n" ++
    "Best regards,\n" ++
    "LogicCart Web Development Team\n\n" ++
    "---\n" ++
    "Request ID: " ++ t.id.getD "" ++ "\n" ++
    "Submitted: " ++ t.created_at.getD "" ++ "\n"
  ⟨subject, body⟩

/-- `_banner_reject_email(ticket, reasons)`. -/
def banner_reject_email (ctx : Ctx) (t : Ticket) (reasons : List String) : Email :=
  let subject := "New Request " ++ t.id.getD "" ++ " - Not Approved"
  let bullet := String.intercalate "\n" ((trim_to_fit reasons 5).map (fun r => "• " ++ r))
  let body :=
    "Hello " ++ t.requester_name.getD "there" ++ ",\n\n" ++
    "Thank you for submitting your new banner request. Unfortunately, we cannot approve it in its current form due to the following policy violations:\n\n" ++
    "Issues Found:\n" ++ bullet ++ "\n\n" ++
    "Recommendations:\n" ++
    "• Review our brand guidelines at https://logiccart.com/brand-guidelines\n" ++
    "• Ensure images meet professional quality standards (high resolution, no blur/pixelation)\n" ++
    "• Use colors that complement LogicCart\x27s purple theme (#5754FF)\n" ++
    "• Verify content is appropriate for our e-commerce platform\n" ++
    "• Check that URLs point to approved LogicCart domains only\n\n" ++
    "Implementation Details:\n" ++
    "• Impacted Page Area: " ++ t.page_area.getD "(from form)" ++ "\n" ++
    "• Impacted Page URL(s): " ++ pageUrlsLine t ++ "\n" ++
    "• Target Go-live Date: " ++ t.launch_date.getD "(from form)" ++ "\n" ++
    "• Description: " ++ t.description.getD "" ++ "\n" ++
    "• English Content: " ++ pyShowOpt t.copy_en ++ "\n" ++
    "• Chinese Content: " ++ pyShowOpt t.copy_zh ++ "\n\n" ++
    "Submitted Images:\n" ++ get_image_urls_section ctx t ++ "\n\n" ++
    "Next Steps:\n" ++
    "• Address the issues listed above\n" ++
    "• Resubmit your request with updated materials\n\n" ++
    "Questions?\n" ++
    "Contact us at dev@logiccart.com\n\n\n" ++
    "Best regards,\n" ++
    "LogicCart Web Development Team\n\n" ++
    "---\n" ++
    "Request ID: " ++ t.id.getD "" ++ "\n" ++
    "Reviewed: " ++ ctx.nowStr ++ " UTC\n"
  ⟨subject, body⟩

/-- `_feature_email_from_policy(ticket)`. -/
def feature_email_from_policy (t : Ticket) : Email :=
  let subject := "New Request " ++ t.id.getD "" ++ " - Additional Information Required"
  let body :=
    "Hello " ++ t.requester_name.getD "there" ++ ",\n\n" ++
    "Thank you for submitting your new feature request. To ensure we build exactly what you need, please provide the following information:\n\n" ++
    "Request Summary:\n" ++
    "• Request Type: New Feature\n" ++
    "• Department: " ++ pyShowOpt t.department ++ "\n" ++
    "• Impacted Page Area: " ++ pyShowOpt t.page_area ++ "\n" ++
    "• Impacted Page URLs: " ++ pageUrlsText t ++ "\n" ++
    "• Target Go-live Date: " ++ pyShowOpt t.launch_date ++ "\n" ++
    "• Description: " ++ t.description.getD "" ++ "\n" ++
    "• English Content: " ++ pyShowOpt t.copy_en ++ "\n" ++
    "• Chinese Content: " ++ pyShowOpt t.copy_zh ++ "\n\n" ++
    "Additional Information Required:\n\n" ++
    "1. Visual Design\n" ++
    "• Reference images, wireframes or mockups showing the ideal user interface\n" ++
    "• Figma links or design specifications if applicable\n" ++
    "• Mobile and desktop layouts if applicable\n\n" ++
    "2. Technical Specifications\n" ++
    "• What data needs to be stored or retrieved?\n" ++
    "• Any integrations with existing systems?\n" ++
    "• Performance or scalability requirements?\n\n" ++
    "3. Success Metrics\n" ++
    "• How will we measure if this feature is successful?\n" ++
    "• Expected user engagement or business impact?\n" ++
    "• Any specific KPIs or targets?\n\n" ++
    "Next Steps:\n" ++
    "Please reply to this email with the above information. Once received, our development team will review and provide a timeline estimate.\n\n" ++
    "Questions?\n" ++
    "Contact us at dev@logiccart.com\n\n" ++
    "Best regards,\n" ++
    "LogicCart Web Development Team\n\n" ++
    "---\n" ++
    "Request ID: " ++ t.id.getD "" ++ "\n" ++
    "Submitted: " ++ t.created_at.getD "" ++ "\n"
  ⟨subject, body⟩

/-! ## handler.py: response helpers -/

/-- `_approve(reasons, confidence, analysis_method, ticket)`. -/
def approveHelper (ctx : Ctx) (reasons : List String) (confidence : ℚ)
    (method : String) (ticket : Option Ticket) : Decision :=
  { decision := .APPROVE
    reasons := trim_to_fit reasons 5
    confidence := min 1 (max 0 confidence)
    analysis_method := method
    email := ticket.map (fun t => banner_approve_email ctx t reasons) }

/-- `_reject(reasons, confidence, analysis_method, ticket)`. -/
def rejectHelper (ctx : Ctx) (reasons : List String) (confidence : ℚ)
    (method : String) (ticket : Option Ticket) : Decision :=
  { decision := .REJECT
    reasons := trim_to_fit reasons 5
    confidence := min 1 (max 0 confidence)
    analysis_method := method
    email := ticket.map (fun t => banner_reject_email ctx t reasons) }

/-- `_needs_info(reasons, confidence, email, analysis_method)`. -/
def needsInfoHelper (reasons : List String) (confidence : ℚ)
    (email : Option Email) (method : String) : Decision :=
  { decision := .NEEDS_INFO
    reasons := trim_to_fit reasons 5
    confidence := min 1 (max 0 confidence)
    analysis_method := method
    email := email }

/-! ## handler.py: `_visual_policy_decision` -/

/-- The brand-color probe of `_visual_policy_decision`: detected colors
(upper-cased) matched exactly against the brand palette or by hex-fragment
substring. -/
def hasBrandColor (colorsUpper : List String) : Bool :=
  (["#5754FF", "#5E60F1", "#6366F1", "#8B5CF6", "#A855F7", "#C084FC"]).any
      (fun c => colorsUpper.contains c) ||
    colorsUpper.any (fun c =>
      (["5754", "5E60", "6366", "8B5C", "A855", "C084"]).any (fun b => pyIn b c))

/-- `_visual_policy_decision(ticket, visual, prior_reasons)`.  The final
fall-through branch of the source calls `self._approve(..., tet=tic)`,
which raises a `NameError` at run time; it is modelled as `Except.error`. -/
def visual_policy_decision (ctx : Ctx) (t : Ticket) (visual : Analysis)
    (prior_reasons : List String) : Except String Decision :=
  let reasons := prior_reasons
  let content := visual.content_appropriateness
  let quality := visual.visual_quality
  let overall := visual.overall_compliance
  let appropriate := content.appropriate
  let quality_score := quality.score
  let issues := quality.issues ++ content.concerns
  let confidence_ai := overall.confidence
  let compliant_flag := overall.compliant
  -- Policy hard REJECT: inappropriate content
  if ¬ appropriate then
    let bad := content.concerns
    let reasons :=
      if bad ≠ [] then reasons ++ pySliceTo bad (5 - (reasons.length : Int))
      else reasons ++ ["Inappropriate or unprofessional content detected"]
    .ok (rejectHelper ctx (reasons.take 5) (max 0.7 confidence_ai) "policy_visual" (some t))
  -- Poor visual quality REJECT
  else if quality_score ≤ 0.3 || issues.any looks_like_quality_blocker then
    let reasons := reasons ++ trim_to_fit issues (5 - (reasons.length : Int))
    .ok (rejectHelper ctx (reasons.take 5) (max 0.7 confidence_ai) "policy_visual" (some t))
  else
    let colors := visual.colors_detected.map pyUpper
    let has_brand_color := hasBrandColor colors
    let is_festival :=
      pyIn "festival" (pyLower (t.title.getD "" ++ " " ++ t.description.getD ""))
    -- Lenient auto-approve
    if appropriate && quality_score ≥ 0.5
        && (has_brand_color || is_festival || compliant_flag) then
      .ok (approveHelper ctx
        ["Professional image quality", "Appropriate content", "Brand alignment acceptable"]
        (min 1 (max 0.8 confidence_ai)) "policy_visual" (some t))
    -- Conservative approval for borderline cases
    else if appropriate && quality_score ≥ 0.4 && compliant_flag && issues = [] then
      .ok (approveHelper ctx
        ["Meets policy standards", "No significant issues detected"]
        (min 0.9 (max 0.7 confidence_ai)) "policy_visual" (some t))
    else
      let needs_info_reasons := prior_reasons
      let needs_info_reasons :=
        if quality_score < 0.4 then needs_info_reasons ++ ["Image quality may need improvement"]
        else needs_info_reasons
      let needs_info_reasons :=
        if ¬ has_brand_color && ¬ is_festival && ¬ compliant_flag then
          needs_info_reasons ++ ["Brand alignment could be enhanced"]
        else needs_info_reasons
      -- No specific issues but model uncertain: approve at lower confidence
      if needs_info_reasons = [] && appropriate then
        .ok (approveHelper ctx
          ["Acceptable quality", "No policy violations detected"]
          (max 0.6 confidence_ai) "policy_visual" (some t))
      else if needs_info_reasons ≠ [] then
        let email := banner_needs_info_email ctx t needs_info_reasons
        .ok (needsInfoHelper (trim_to_fit needs_info_reasons 5)
          (max 0.6 confidence_ai) (some email) "policy_visual")
      else
        -- `self._approve(..., tet=tic)`: NameError, the call never returns
        .error "NameError: name \x27tic\x27 is not defined"

/-! ## handler.py: `_process_banner` and `_process_feature` -/

/-- `_process_banner(ticket, policy_text)`.  The outcome of
`_run_visual_analysis` (external Bedrock/S3 collaborators) is passed in:
`none` models the no-accessible-image and raised-before-analyzer cases,
`some v` the analysis dict returned by the Nova analyzer. -/
def process_banner (ctx : Ctx) (t : Ticket) (visual : Option Analysis) :
    Except String Decision :=
  let url_status := validate_urls t.page_urls
  if url_status.reject_reasons ≠ [] then
    .ok (rejectHelper ctx url_status.reject_reasons 0.9 "policy_url_check" none)
  else
    let reasons := url_status.needs_info_reasons
    match visual with
    | none =>
      .ok (needsInfoHelper (reasons ++ ["No accessible banner image to analyze"])
            0.6 none "policy_visual_focus")
    | some v => visual_policy_decision ctx t v reasons

/-- `_process_feature(ticket, policy_text)`. -/
def process_feature (t : Ticket) : Decision :=
  { decision := .NEEDS_INFO
    reasons := ["New Feature requests require additional specification"]
    confidence := 1
    analysis_method := "policy_template"
    email := some (feature_email_from_policy t) }

/-! ## nova_lite_analyzer.py: JSON values and `_validate_analysis_structure` -/

/-- A parsed JSON value (the result of `json.loads`); Python `bool` is kept
distinct from numbers, but `isinstance(b, int)` is true for `bool`. -/
inductive Jv
  | null
  | bool (b : Bool)
  | num (q : ℚ)
  | str (s : String)
  | arr (xs : List Jv)
  | obj (kvs : List (String × Jv))

namespace Jv

/-- Python truthiness of a JSON value. -/
def truthy : Jv → Bool
  | .null => false
  | .bool b => b
  | .num q => q ≠ 0
  | .str s => s ≠ ""
  | .arr xs => !xs.isEmpty
  | .obj kvs => !kvs.isEmpty

/-- Python `isinstance(v, (int, float))` (true for `bool` as well). -/
def isNumberLike : Jv → Bool
  | .bool _ => true
  | .num _ => true
  | _ => false

/-- Python `isinstance(v, list)`. -/
def isList : Jv → Bool
  | .arr _ => true
  | _ => false

/-- Python `isinstance(v, str)`. -/
def isStr : Jv → Bool
  | .str _ => true
  | _ => false

end Jv

/-- `d.get(k, default)` on a parsed JSON object. -/
def jGet (kvs : List (String × Jv)) (k : String) (dflt : Jv) : Jv :=
  (kvs.lookup k).getD dflt

/-- The normalized record built by `_validate_analysis_structure`: the
top-level signal fields are passed through as JSON values, the four
sub-records are repaired field by field. -/
structure NormAnalysis where
  colors_detected : Jv
  logo_present : Bool
  brand_elements : Jv
  text_content : Jv
  vq_score : Jv
  vq_issues : Jv
  acc_contrast_adequate : Bool
  acc_text_readable : Bool
  ca_appropriate : Bool
  ca_concerns : Jv
  oc_compliant : Bool
  oc_confidence : Jv
  oc_summary : Jv

/-- The `x.get(..., {}) or {}` sub-dict defaulting of
`_validate_analysis_structure`; a truthy non-object makes the following
mutation/`in` operations raise (`none`), routing the caller to the
fallback record. -/
def subDict (kvs : List (String × Jv)) (k : String) :
    Option (List (String × Jv)) :=
  let v := jGet kvs k (.obj [])
  if v.truthy then
    match v with
    | .obj sub => some sub
    | _ => none
  else some []

/-- `_validate_analysis_structure(analysis)`.  `none` models the raised
`TypeError`/`AttributeError` when a sub-record is a truthy non-object
(caught by `_parse_analysis_response`, which then falls back); the record
is produced exactly when all four sub-records are usable dicts. -/
def validate_analysis_structure (kvs : List (String × Jv)) :
    Option NormAnalysis :=
  match subDict kvs "visual_quality", subDict kvs "accessibility",
      subDict kvs "content_appropriateness", subDict kvs "overall_compliance" with
  | some vq, some acc, some ca, some oc =>
  let colors := jGet kvs "colors_detected" (.arr [])
  let colors := if colors.truthy then colors else .arr []
  let brands := jGet kvs "brand_elements" (.arr [])
  let brands := if brands.truthy then brands else .arr []
  let texts := jGet kvs "text_content" (.arr [])
  let texts := if texts.truthy then texts else .arr []
  let score := jGet vq "score" .null
  let score := if (vq.lookup "score").isNone || ¬ score.isNumberLike then .num 0.5 else score
  let issues := jGet vq "issues" .null
  let issues := if (vq.lookup "issues").isNone || ¬ issues.isList then .arr [] else issues
  some
    { colors_detected := colors
      logo_present := (jGet kvs "logo_present" (.bool false)).truthy
      brand_elements := brands
      text_content := texts
      vq_score := score
      vq_issues := issues
      acc_contrast_adequate := (jGet acc "contrast_adequate" (.bool false)).truthy
      acc_text_readable := (jGet acc "text_readable" (.bool false)).truthy
      ca_appropriate := (jGet ca "appropriate" (.bool true)).truthy
      ca_concerns := if ¬ (jGet ca "concerns" .null).isList then .arr [] else jGet ca "concerns" .null
      oc_compliant := (jGet oc "compliant" (.bool false)).truthy
      oc_confidence :=
        if ¬ (jGet oc "confidence" .null).isNumberLike then .num 0.5 else jGet oc "confidence" .null
      oc_summary :=
        if ¬ (jGet oc "summary" (.str "")).isStr then .str "Analysis completed"
        else jGet oc "summary" (.str "") }
  | _, _, _, _ => none

/-! ## nova_lite_analyzer.py: fallback and error analyses -/

/-- `_create_fallback_analysis(analysis_text)` (well-typed output; the
`raw_analysis`/`parsing_error` diagnostics are beside the decision logic
and the `error` key is absent, i.e. falsy). -/
def create_fallback_analysis (analysis_text : String) : Analysis :=
  let text_lower := pyLower analysis_text
  let colors := if pyIn "#5754ff" text_lower || pyIn "purple" text_lower
                then ["#5754FF"] else []
  let logo_flag := (["logo", "logicart", "branding"]).any (fun k => pyIn k text_lower)
  { colors_detected := colors.dedup
    logo_present := logo_flag
    brand_elements := if logo_flag then ["LogicCart branding"] else []
    text_content := []
    visual_quality := ⟨0.4, ["Unable to parse model JSON"]⟩
    accessibility := ⟨false, false⟩
    content_appropriateness := ⟨true, []⟩
    overall_compliance := ⟨false, 0.3, "Fallback generated due to parsing issues"⟩
    error := false }

/-- `_create_error_analysis(error_message)`. -/
def create_error_analysis (error_message : String) : Analysis :=
  { colors_detected := []
    logo_present := false
    brand_elements := []
    text_content := []
    visual_quality := ⟨0, ["Analysis failed: " ++ error_message]⟩
    accessibility := ⟨false, false⟩
    content_appropriateness := ⟨false, ["Visual analysis unavailable"]⟩
    overall_compliance := ⟨false, 0, "Analysis failed: " ++ error_message⟩
    error := true }

/-! ## nova_lite_analyzer.py: `_combine_analyses` -/

/-- Python `sorted(set(xs))` on strings. -/
def sortedSet (xs : List String) : List String :=
  (xs.dedup).insertionSort (· ≤ ·)

/-- The multi-image branch of `_combine_analyses` (two or more analyses);
error-shaped analyses are skipped by the aggregation loop. -/
structure CombinedAnalysis where
  colors_detected : List String
  logo_present : Bool
  brand_elements : List String
  text_content : List String
  visual_quality : VisualQuality
  accessibility : AccessibilityInfo
  content_appropriateness : ContentAppropriateness
  overall_compliance : OverallCompliance
  individual_analyses : List Analysis
  combined_analysis : Bool
deriving DecidableEq, Repr

/-- Aggregation of the `_combine_analyses` loop plus the returned dict. -/
def combineMulti (analyses : List Analysis) : CombinedAnalysis :=
  let ok := analyses.filter (fun a => !a.error)
  let colors := ok.flatMap Analysis.colors_detected
  let brands := ok.flatMap Analysis.brand_elements
  let texts := ok.flatMap Analysis.text_content
  let logo_present := ok.any Analysis.logo_present
  let vq_scores := ok.map (fun a => a.visual_quality.score)
  let oc_scores := ok.map (fun a => a.overall_compliance.confidence)
  let appropriate_all := ok.all (fun a => a.content_appropriateness.appropriate)
  let concerns := ok.flatMap (fun a => a.content_appropriateness.concerns)
  let avg_vq := if vq_scores ≠ [] then vq_scores.sum / vq_scores.length else 0
  let avg_conf := if oc_scores ≠ [] then oc_scores.sum / oc_scores.length else 0
  { colors_detected := sortedSet colors
    logo_present := logo_present
    brand_elements := sortedSet brands
    text_content := sortedSet texts
    visual_quality := ⟨avg_vq, []⟩
    accessibility := ⟨decide (avg_vq ≥ 0.6), decide (avg_vq ≥ 0.5)⟩
    content_appropriateness := ⟨appropriate_all, sortedSet concerns⟩
    overall_compliance :=
      ⟨decide (avg_conf ≥ 0.7) && appropriate_all, avg_conf,
       "Combined analysis of " ++ toString analyses.length ++ " images"⟩
    individual_analyses := analyses
    combined_analysis := true }

/-- `_combine_analyses(analyses)`: empty and singleton lists return an
analysis-shaped dict, larger lists the combined record. -/
inductive CombineResult
  | plain (a : Analysis)
  | multi (c : CombinedAnalysis)
deriving DecidableEq, Repr

def combine_analyses : List Analysis → CombineResult
  | [] => .plain (create_error_analysis "No analyses to combine")
  | [a] => .plain a
  | analyses => .multi (combineMulti analyses)

/-- The decision-relevant content of a combined record: every field except
the order-preserving `individual_analyses` diagnostic. -/
def combinedCore (c : CombinedAnalysis) :
    List String × Bool × List String × List String × VisualQuality ×
      AccessibilityInfo × ContentAppropriateness × OverallCompliance × Bool :=
  (c.colors_detected, c.logo_present, c.brand_elements, c.text_content,
   c.visual_quality, c.accessibility, c.content_appropriateness,
   c.overall_compliance, c.combined_analysis)

/-! ## error_handling.py and system_prompts.py: helpers and templates -/

/-- Python `a or b` on an optional string with a string fallback. -/
def pyOrStr : Option String → String → String
  | some s, d => if s ≠ "" then s else d
  | none, d => d

/-- Python `str.title()` (ASCII): upper-case every cased character that
follows a non-cased one, lower-case the rest. -/
def pyTitleAux : Bool → List Char → List Char
  | _, [] => []
  | prevAlpha, c :: cs =>
    (if c.isAlpha then (if prevAlpha then c.toLower else c.toUpper) else c) ::
      pyTitleAux c.isAlpha cs

def pyTitle (s : String) : String := ⟨pyTitleAux false s.data⟩

/-- `FallbackDecisionEngine._name_from_email(email)`. -/
def name_from_email (email : String) : String :=
  if email = "" || ¬ pyIn "@" email then "User"
  else
    let lcl := (email.splitOn "@").headD ""
    if pyIn "." lcl then String.intercalate " " ((lcl.splitOn ".").map pyTitle)
    else if pyIn "_" lcl then String.intercalate " " ((lcl.splitOn "_").map pyTitle)
    else pyTitle lcl

/-- `PromptTemplates.format_email_template` rendering of the
`reasons_list` bullet block. -/
def reasonsListBlock (reasons : List String) : String :=
  String.intercalate "\n" (reasons.map (fun r => "• " ++ r))

/-- `PromptTemplates` rendering for the `banner_reject` key. -/
def tpl_banner_reject (requester_name title ticket_id : String)
    (reasons : List String) : Email :=
  ⟨"Banner Request Rejected - " ++ title,
   "Dear " ++ requester_name ++ ",\n\n" ++
   "Your banner request \x27" ++ title ++ "\x27 (ID: " ++ ticket_id ++
   ") has been rejected for visual policy reasons:\n\n" ++
   reasonsListBlock reasons ++ "\n\n" ++
   "Please correct the issues and resubmit.\n\n" ++
   "Best regards,\nLogicCart Review Team"⟩

/-- `PromptTemplates` rendering for the `banner_needs_info` key. -/
def tpl_banner_needs_info (requester_name title ticket_id : String)
    (reasons : List String) : Email :=
  ⟨"Banner Request - Additional Information Required",
   "Dear " ++ requester_name ++ ",\n\n" ++
   "Your banner request \x27" ++ title ++ "\x27 (ID: " ++ ticket_id ++
   ") requires clarification:\n\n" ++
   reasonsListBlock reasons ++ "\n\n" ++
   "Please provide the requested info or updated assets.\n\n" ++
   "Best regards,\nLogicCart Review Team"⟩

/-- `PromptTemplates` rendering for the `feature_needs_info` key. -/
def tpl_feature_needs_info (requester_name title ticket_id : String) : Email :=
  ⟨"Feature Request - Specification Required",
   "Dear " ++ requester_name ++ ",\n\n" ++
   "Thank you for your feature request \x27" ++ title ++ "\x27 (ID: " ++
   ticket_id ++ "). To proceed, please provide:\n\n" ++
   "• User stories (As a [role], I want [feature], so that [benefit])\n" ++
   "• Visual mockups or Figma links\n" ++
   "• Technical/API specifications (including data and integrations)\n" ++
   "• Success metrics/KPIs\n\n" ++
   "Reply with these details to continue processing.\n\n" ++
   "Best regards,\nLogicCart Development Team"⟩

/-- `FallbackDecisionEngine._build_banner_email` (the repository always
has `PromptTemplates` importable, so the template path is taken). -/
def build_banner_email (decision : DecisionKind) (title ticket_id : String)
    (requester_name : String) (reasons : List String) : Email :=
  match decision with
  | .NEEDS_INFO => tpl_banner_needs_info requester_name title ticket_id reasons
  | _ => tpl_banner_reject requester_name title ticket_id reasons

/-! ## error_handling.py: `FallbackDecisionEngine` checks -/

/-- `FallbackDecisionEngine._check_urls(ticket_data)`: exact allowlist
membership only (the deliberate conservative choice documented in the
source comment). -/
def fallbackHostApproved (netloc : String) : Bool :=
  approvedDomains.contains netloc

/-- The URL list assembled by `_check_urls`: stripped `target_url` first,
then the non-blank `page_urls`. -/
def fallbackUrlList (t : Ticket) : List Url :=
  (match t.target_url with
   | some u => if pyStrip u.raw ≠ "" then [u] else []
   | none => []) ++
  t.page_urls.filter (fun u => pyStrip u.raw ≠ "")

/-- Per-URL issue of the `_check_urls` loop. -/
def fallbackUrlIssue (u : Url) : List String :=
  match u.host with
  | none => ["Target URL \x27" ++ u.raw ++ "\x27 is invalid or cannot be parsed"]
  | some netloc =>
    if ¬ fallbackHostApproved (pyLower netloc) then
      ["Target URL \x27" ++ u.raw ++
       "\x27 uses non-approved domain (policy: approved LogicCart properties only)"]
    else []

def check_urls (t : Ticket) : List String :=
  (fallbackUrlList t).flatMap fallbackUrlIssue

/-- `FallbackDecisionEngine._check_misleading_claims(ticket_data)`. -/
def check_misleading_claims (t : Ticket) : List String :=
  let text_blobs :=
    ([t.title, t.description, t.copy_en, t.copy_zh, t.notes]).filterMap
      (fun v => match v with
        | some s => if pyStrip s ≠ "" then some (pyLower (pyStrip s)) else none
        | none => none)
  if text_blobs = [] then []
  else
    let text := String.intercalate " " text_blobs
    let suspicious := ["100% off", "free for life", "guaranteed lowest price",
                       "unlimited for free", "no terms apply"]
    (if suspicious.any (fun s => pyIn s text) then
      ["Possible misleading claim detected in description/copy (requires manual verification)"]
     else []) ++
    (if pyIn "watermark" text || pyIn "stock photo" text then
      ["Possible watermark/stock photo concern (requires manual verification)"]
     else []) ++
    (if (["shopify", "woocommerce", "magento", "bigcommerce"]).any (fun c => pyIn c text) then
      ["Possible competitor branding mentioned in description (visual verification required)"]
     else [])

/-! ## error_handling.py: fallback decisions -/

/-- The record returned by `analyze_banner_fallback`. -/
structure FallbackBannerResult where
  decision : DecisionKind
  reasons : List String
  confidence : ℚ
  summary : String
  email : Email
  fallback_analysis : Bool
  visual_analysis_unavailable : Bool
  analysis_method : String
  analysis_timestamp : String
deriving DecidableEq, Repr

/-- The findings accumulated by `analyze_banner_fallback` before its
decision rule: URL issues first, then misleading-claim flags. -/
def fallbackFindings (t : Ticket) : List String :=
  check_urls t ++ check_misleading_claims t

/-- The REJECT trigger of `analyze_banner_fallback`: some finding mentions
a non-approved domain. -/
def fallbackHit (t : Ticket) : Bool :=
  (fallbackFindings t).any (fun r => pyIn "non-approved domain" (pyLower r))

/-- `FallbackDecisionEngine.analyze_banner_fallback(ticket_data,
policy_text)`; `ts` is the impure `analysis_timestamp()` string and
`policy_text` is unused by the source body. -/
def analyze_banner_fallback (ts : String) (t : Ticket) : FallbackBannerResult :=
  let ticket_id := t.id.getD "unknown"
  let title := pyOrStr t.title (pyOrStr t.description "Banner Request")
  let requester_email := t.requester_email.getD ""
  let requester_name := pyOrStr t.requester_name (name_from_email requester_email)
  let reasons := fallbackFindings t
  let hit := fallbackHit t
  let decision := if hit then DecisionKind.REJECT else DecisionKind.NEEDS_INFO
  let reasons :=
    if hit then reasons
    else if reasons = [] then ["Visual analysis unavailable — requires manual review"]
    else reasons
  let confidence : ℚ := if hit then 0.9 else max 0.55 0.6
  let email := build_banner_email decision title ticket_id requester_name reasons
  { decision := decision
    reasons := reasons.take 5
    confidence := confidence
    summary := "Visual analysis unavailable — fallback checks executed."
    email := email
    fallback_analysis := true
    visual_analysis_unavailable := true
    analysis_method := "rule_based_fallback"
    analysis_timestamp := ts }

/-- The record returned by `generate_feature_needs_info`. -/
structure FeatureInfoResult where
  decision : DecisionKind
  reasons : List String
  confidence : ℚ
  email : Email
  fallback_analysis : Bool
  analysis_method : String
  analysis_timestamp : String
deriving DecidableEq, Repr

/-- `FallbackDecisionEngine.generate_feature_needs_info(ticket_data)`
(the `PromptTemplates` path overrides the inline subject/body). -/
def generate_feature_needs_info (ts : String) (t : Ticket) : FeatureInfoResult :=
  let ticket_id := t.id.getD "unknown"
  let title := pyOrStr t.title (pyOrStr t.description "Request")
  let requester_email := t.requester_email.getD ""
  let requester_name := pyOrStr t.requester_name (name_from_email requester_email)
  { decision := .NEEDS_INFO
    reasons := ["Requires user stories, visual mockups (Figma), technical specs, and success metrics"]
    confidence := 1
    email := tpl_feature_needs_info requester_name title ticket_id
    fallback_analysis := false
    analysis_method := "policy_feature_guidance"
    analysis_timestamp := ts }

/-! ## error_handling.py: `ErrorHandler` -/

inductive ErrorType
  | BEDROCK_UNAVAILABLE
  | BEDROCK_TIMEOUT
  | BEDROCK_QUOTA_EXCEEDED
  | S3_ACCESS_ERROR
  | DYNAMODB_ERROR
  | SNS_ERROR
  | NETWORK_ERROR
  | VALIDATION_ERROR
  | UNKNOWN_ERROR
deriving DecidableEq, Repr

/-- The ordered `_patterns` table of `ErrorHandler.__init__`. -/
def errorPatterns : List (ErrorType × List String) :=
  [(.BEDROCK_UNAVAILABLE, ["bedrock", "unavailable", "endpoint", "connection"]),
   (.BEDROCK_TIMEOUT, ["timeout", "timed out", "request timeout", "read timeout"]),
   (.BEDROCK_QUOTA_EXCEEDED, ["quota", "limit", "throttl", "rate limit", "exceeded"]),
   (.S3_ACCESS_ERROR, ["s3", "bucket", "access denied", "no such key", "forbidden"]),
   (.DYNAMODB_ERROR, ["dynamodb", "provisioned throughput", "conditional check failed"]),
   (.SNS_ERROR, ["sns", "topic", "publish", "notification"]),
   (.NETWORK_ERROR, ["network", "dns", "connection refused", "unreachable"]),
   (.VALIDATION_ERROR, ["validation", "invalid", "schema", "format"])]

/-- `ErrorHandler.classify_error(error_message, exception)`; the optional
exception is represented by its type name. -/
def classify_error (error_message : String) (exceptionTypeName : Option String) :
    ErrorType :=
  let em := pyLower error_message
  match exceptionTypeName with
  | some tyName =>
    let name := pyLower tyName
    if pyIn "throttl" em || pyIn "quota" em then .BEDROCK_QUOTA_EXCEEDED
    else if pyIn "timeout" em then .BEDROCK_TIMEOUT
    else if pyIn "bedrock" name || pyIn "bedrock" em then .BEDROCK_UNAVAILABLE
    else ((errorPatterns.find? (fun p => p.2.any (fun pat => pyIn pat em))).map
            Prod.fst).getD .UNKNOWN_ERROR
  | none =>
    ((errorPatterns.find? (fun p => p.2.any (fun pat => pyIn pat em))).map
       Prod.fst).getD .UNKNOWN_ERROR

/-- The record returned by `ErrorHandler._manual_review`. -/
structure ManualReviewResult where
  decision : DecisionKind
  reasons : List String
  confidence : ℚ
  summary : String
  email : Email
  error : Bool
  manual_review_required : Bool
  analysis_timestamp : String
deriving DecidableEq, Repr

/-- `ErrorHandler._manual_review(ticket_data, err)`. -/
def manual_review (ts : String) (t : Ticket) (err : String) : ManualReviewResult :=
  let ticket_id := t.id.getD "unknown"
  let requester_email := t.requester_email.getD ""
  let requester_name := pyOrStr t.requester_name (name_from_email requester_email)
  { decision := .NEEDS_INFO
    reasons := ["System error: manual review required"]
    confidence := 0
    summary := "Manual review due to error: " ++ err
    email :=
      ⟨"Request Requires Manual Review - LogicCart",
       "Dear " ++ requester_name ++ ",\n\n" ++
       "We encountered a technical issue while processing your request. " ++
       "Your ticket has been forwarded for manual review.\n\n" ++
       "Ticket: " ++ ticket_id ++ "\n" ++
       "Details: " ++ err ++ "\n\n" ++
       "We’ll follow up once the review is complete.\n\n" ++
       "Best regards,\nLogicCart Team"⟩
    error := true
    manual_review_required := true
    analysis_timestamp := ts }

/-- The SNS-failure record of `ErrorHandler.handle_error` (the computed
decision is not overridden; `email` is `None`). -/
structure SnsErrorResult where
  decision : DecisionKind
  reasons : List String
  confidence : ℚ
  summary : String
  email : Option Email
  sns_error : Bool
  manual_notification_required : Bool
  analysis_timestamp : String
deriving DecidableEq, Repr

/-- The four result shapes `ErrorHandler.handle_error` can return. -/
inductive HandleErrorResult
  | bannerFallback (r : FallbackBannerResult) (fallback_reason : String)
  | featureInfo (r : FeatureInfoResult) (fallback_reason : String)
  | snsFailure (r : SnsErrorResult)
  | manualReview (m : ManualReviewResult)
deriving DecidableEq, Repr

/-- The `.value` strings of the `ErrorType` enum. -/
def errorTypeValue : ErrorType → String
  | .BEDROCK_UNAVAILABLE => "bedrock_unavailable"
  | .BEDROCK_TIMEOUT => "bedrock_timeout"
  | .BEDROCK_QUOTA_EXCEEDED => "bedrock_quota_exceeded"
  | .S3_ACCESS_ERROR => "s3_access_error"
  | .DYNAMODB_ERROR => "dynamodb_error"
  | .SNS_ERROR => "sns_error"
  | .NETWORK_ERROR => "network_error"
  | .VALIDATION_ERROR => "validation_error"
  | .UNKNOWN_ERROR => "unknown_error"

/-- `ErrorHandler.handle_error(error_type, error_message, ticket_data,
policy_text)`. -/
def handle_error (ts : String) (error_type : ErrorType) (error_message : String)
    (t : Ticket) : HandleErrorResult :=
  let request_type := pyUpper (t.request_type.getD "")
  if error_type = .BEDROCK_UNAVAILABLE || error_type = .BEDROCK_TIMEOUT
      || error_type = .BEDROCK_QUOTA_EXCEEDED then
    if request_type = "NEW_BANNER" then
      .bannerFallback (analyze_banner_fallback ts t)
        ("Vision temporarily unavailable: " ++ error_message)
    else if request_type = "NEW_FEATURE" then
      .featureInfo (generate_feature_needs_info ts t)
        ("Vision not required for features; guidance generated. (" ++ error_message ++ ")")
    else
      .manualReview (manual_review ts t
        ("Unknown request type during Bedrock issue: " ++ request_type))
  else if error_type = .S3_ACCESS_ERROR then
    .manualReview (manual_review ts t
      ("Unable to access required policy/resources: " ++ error_message))
  else if error_type = .DYNAMODB_ERROR then
    .manualReview (manual_review ts t ("Database access error: " ++ error_message))
  else if error_type = .SNS_ERROR then
    .snsFailure
      { decision := .NEEDS_INFO
        reasons := ["Decision completed but notification failed"]
        confidence := 0.5
        summary := "SNS publish error: " ++ error_message
        email := none
        sns_error := true
        manual_notification_required := true
        analysis_timestamp := ts }
  else
    .manualReview (manual_review ts t
      (if error_message ≠ "" then error_message else errorTypeValue error_type))

/-! ## Concrete fixtures used by witnesses and counterexamples -/

/-- A context whose S3 signer finds no image. -/
def ctxEx : Ctx := ⟨fun _ => none, "2026-01-01 00:00:00"⟩

/-- A ticket with every optional field absent. -/
def emptyTicket : Ticket :=
  { id := none, request_type := none, title := none, description := none,
    requester_name := none, requester_email := none, page_area := none,
    launch_date := none, copy_en := none, copy_zh := none, created_at := none,
    department := none, notes := none, target_url := none, page_urls := [],
    assets := [] }

/-- A URL on a non-approved host (`urlparse` yields `evil.com`). -/
def evilUrl : Url := ⟨"https://evil.com/x", some "evil.com"⟩

/-- A URL on a strict subdomain of an approved domain. -/
def wwwUrl : Url := ⟨"https://www.logicart.com/x", some "www.logicart.com"⟩

def tEvil : Ticket := { emptyTicket with page_urls := [evilUrl] }

def tWww : Ticket := { emptyTicket with page_urls := [wwwUrl] }

/-! ## Helper lemmas -/

theorem mem_pySliceTo {l : List α} {n : Int} {a : α} (h : a ∈ pySliceTo l n) :
    a ∈ l := by
  unfold pySliceTo at h
  split at h <;> exact List.mem_of_mem_take h

theorem length_pySliceTo_le (l : List α) (n : Int) (hn : 0 ≤ n) :
    (pySliceTo l n).length ≤ n.toNat := by
  unfold pySliceTo
  rw [if_pos hn]
  simp [List.length_take_le]

theorem mem_trim_to_fit {items : List String} {n : Int} {s : String}
    (h : s ∈ trim_to_fit items n) : s ≠ "" := by
  have := mem_pySliceTo h
  exact (List.mem_filter.mp this).2 |> fun hb => by simpa using hb

/-- The output contract of every decision built through `_trim_to_fit`:
at most five reasons, none of them empty. -/
def reasonsOK (rs : List String) : Prop :=
  rs.length ≤ 5 ∧ ∀ s ∈ rs, s ≠ ""

theorem reasonsOK_trim (items : List String) : reasonsOK (trim_to_fit items 5) := by
  constructor
  · exact length_pySliceTo_le _ 5 (by decide)
  · intro s hs
    exact mem_trim_to_fit hs

theorem reasonsOK_take5 {rs : List String} (h : ∀ s ∈ rs, s ≠ "") :
    reasonsOK (rs.take 5) := by
  constructor
  · simp [List.length_take_le]
  · intro s hs
    exact h s (List.mem_of_mem_take hs)

/-- A string with a non-empty prefix is non-empty. -/
theorem append_ne_empty_left (p rest : String) (hp : p ≠ "") :
    p ++ rest ≠ "" := by
  intro h
  apply hp
  have hd : p.data ++ rest.data = ([] : List Char) := by
    have := congrArg String.data h
    simpa [String.data_append] using this
  have hpd : p.data = [] := (List.append_eq_nil.mp hd).1
  cases p
  simp_all

theorem ne_empty_of_length_pos {s : String} (h : 0 < s.length) : s ≠ "" := by
  intro he
  subst he
  simp at h

/-- The clamp `min(1.0, max(0.0, c))` of the response helpers is the
identity on `[0, 1]`. -/
theorem clamp01_eq {c : ℚ} (h0 : 0 ≤ c) (h1 : c ≤ 1) : min 1 (max 0 c) = c := by
  rw [max_eq_right h0, min_eq_right h1]

theorem banner_approve_email_ne_empty (ctx : Ctx) (t : Ticket) (rs : List String) :
    (banner_approve_email ctx t rs).subject ≠ "" ∧
      (banner_approve_email ctx t rs).body ≠ "" := by
  constructor <;>
  · apply ne_empty_of_length_pos
    simp only [banner_approve_email, String.length_append]
    have h1 : ("New Request ").length = 12 := rfl
    have h2 : ("Hello ").length = 6 := rfl
    omega

theorem banner_needs_info_email_ne_empty (ctx : Ctx) (t : Ticket) (rs : List String) :
    (banner_needs_info_email ctx t rs).subject ≠ "" ∧
      (banner_needs_info_email ctx t rs).body ≠ "" := by
  constructor <;>
  · apply ne_empty_of_length_pos
    simp only [banner_needs_info_email, String.length_append]
    have h1 : ("New Request ").length = 12 := rfl
    have h2 : ("Hello ").length = 6 := rfl
    omega

theorem banner_reject_email_ne_empty (ctx : Ctx) (t : Ticket) (rs : List String) :
    (banner_reject_email ctx t rs).subject ≠ "" ∧
      (banner_reject_email ctx t rs).body ≠ "" := by
  constructor <;>
  · apply ne_empty_of_length_pos
    simp only [banner_reject_email, String.length_append]
    have h1 : ("New Request ").length = 12 := rfl
    have h2 : ("Hello ").length = 6 := rfl
    omega

attribute [irreducible] banner_approve_email banner_needs_info_email banner_reject_email

set_option maxHeartbeats 1000000

theorem validate_urls_reject_ne_nil {urls : List Url} {u : Url} {h : String}
    (hraw : u.raw ≠ "") (hhost : u.host = some h)
    (happ : handlerHostApproved (pyLower h) = false) (hmem : u ∈ urls) :
    (validate_urls urls).reject_reasons ≠ [] := by
  induction urls with
  | nil => cases hmem
  | cons x rest ih =>
    rcases List.mem_cons.mp hmem with heq | hmem2
    · have hstep : (validateUrlStep x).reject_reasons =
          ["Non-approved URL domain: " ++ x.raw] := by
        rw [← heq]
        unfold validateUrlStep
        rw [if_neg hraw, hhost]
        simp [happ]
      simp [validate_urls, hstep]
    · have hne := ih hmem2
      simp only [validate_urls, ne_eq, List.append_eq_nil, not_and]
      intro hcon
      exact hne

/-- C4: a banner ticket whose URL list contains a URL with a parseable,
non-approved host is rejected at confidence 0.9 by the URL-check gate, and
the resulting decision is identical for every possible vision-analysis
outcome — the rejection is decided before the vision model is consulted. -/
theorem C4_url_reject_short_circuit
    (ctx : Ctx) (t : Ticket) (u : Url) (h : String)
    (hmem : u ∈ t.page_urls) (hraw : u.raw ≠ "") (hhost : u.host = some h)
    (happ : handlerHostApproved (pyLower h) = false)
    (v₁ v₂ : Option Analysis) :
    process_banner ctx t v₁ = process_banner ctx t v₂ ∧
      ∃ d, process_banner ctx t v₁ = .ok d ∧ d.decision = .REJECT ∧
        d.confidence = 0.9 ∧ d.analysis_method = "policy_url_check" := by
  have hne := validate_urls_reject_ne_nil hraw hhost happ hmem
  constructor
  · simp only [process_banner]
    rw [if_pos hne, if_pos hne]
  · refine ⟨rejectHelper ctx (validate_urls t.page_urls).reject_reasons 0.9
      "policy_url_check" none, ?_, rfl, ?_, rfl⟩
    · simp only [process_banner]
      rw [if_pos hne]
    · exact clamp01_eq (by norm_num) (by norm_num)

theorem C4_witness :
    (evilUrl ∈ tEvil.page_urls ∧ evilUrl.raw ≠ "" ∧
        evilUrl.host = some "evil.com" ∧
        handlerHostApproved (pyLower "evil.com") = false) ∧
      (process_banner ctxEx tEvil none =
          process_banner ctxEx tEvil (some (create_error_analysis "timeout")) ∧
        ∃ d, process_banner ctxEx tEvil none = .ok d ∧ d.decision = .REJECT ∧
          d.confidence = 0.9 ∧ d.analysis_method = "policy_url_check") :=
  ⟨⟨by decide, by decide, rfl, by decide⟩,
   C4_url_reject_short_circuit ctxEx tEvil evilUrl "evil.com" (by decide)
     (by decide) rfl (by decide) none (some (create_error_analysis "timeout"))⟩

/-- C1 counterexample: the URL-check rejection of the banner path returns
a REJECT decision that carries no email at all (`_reject` is called
without a ticket), refuting the claim that every REJECT/NEEDS_INFO
decision carries a non-null email. -/
theorem C1_counterexample :
    (process_banner ctxEx tEvil none).toOption.map Decision.decision
        = some .REJECT ∧
      (process_banner ctxEx tEvil none).toOption.map Decision.email
        = some none :=
  ⟨rfl, rfl⟩

/-- C1 amended: every decision produced by the visual-policy interpreter
(REJECT, NEEDS_INFO and APPROVE alike) carries an email with non-empty
subject and body; only the pre-vision URL-check REJECT and the
no-accessible-image NEEDS_INFO, which bypass the interpreter, omit the
email. -/
theorem C1_visual_path_email (ctx : Ctx) (t : Ticket) (v : Analysis)
    (prior : List String) (d : Decision)
    (hd : visual_policy_decision ctx t v prior = .ok d) :
    ∃ e, d.email = some e ∧ e.subject ≠ "" ∧ e.body ≠ "" := by
  unfold visual_policy_decision at hd
  dsimp only at hd
  repeat' split at hd
  all_goals
    first
    | (injection hd with hd
       subst hd
       first
       | exact ⟨_, rfl, banner_reject_email_ne_empty ctx t _⟩
       | exact ⟨_, rfl, banner_approve_email_ne_empty ctx t _⟩
       | exact ⟨_, rfl, banner_needs_info_email_ne_empty ctx t _⟩)
    | simp at hd

theorem C1_witness :
    visual_policy_decision ctxEx emptyTicket (create_error_analysis "t") [] =
        .ok (rejectHelper ctxEx ["Visual analysis unavailable"] (max 0.7 0)
              "policy_visual" (some emptyTicket)) ∧
      ∃ e, (rejectHelper ctxEx ["Visual analysis unavailable"] (max 0.7 0)
              "policy_visual" (some emptyTicket)).email = some e ∧
        e.subject ≠ "" ∧ e.body ≠ "" :=
  ⟨rfl,
   C1_visual_path_email ctxEx emptyTicket (create_error_analysis "t") [] _ rfl⟩

/-- C2: when the vision call fails (timeout or any other Bedrock error),
the analyzer returns its error-shaped record (no exception escapes), but
that record marks the content inappropriate, so `_visual_policy_decision`
REJECTS the banner at confidence 0.7 with reason "Visual analysis
unavailable"; the Fallback Rule Engine is never invoked by the handler and
the result carries no `fallback_analysis` marker, contradicting the
claimed NEEDS_INFO fallback routing. -/
theorem C2_error_analysis_rejected (ctx : Ctx) (t : Ticket) (msg : String)
    (hurls : t.page_urls = []) :
    ∃ d, process_banner ctx t (some (create_error_analysis msg)) = .ok d ∧
      d.decision = .REJECT ∧ d.reasons = ["Visual analysis unavailable"] ∧
      d.confidence = 0.7 ∧ d.analysis_method = "policy_visual" := by
  refine ⟨rejectHelper ctx ["Visual analysis unavailable"] (max 0.7 0)
    "policy_visual" (some t), ?_, rfl, rfl, ?_, rfl⟩
  · simp only [process_banner, hurls]
    rfl
  · show min 1 (max 0 (max 0.7 0)) = 0.7
    rw [max_eq_left (by norm_num : (0 : ℚ) ≤ 0.7)]
    exact clamp01_eq (by norm_num) (by norm_num)

theorem C2_witness :
    emptyTicket.page_urls = [] ∧
      ∃ d, process_banner ctxEx emptyTicket
          (some (create_error_analysis "Bedrock invoke exception: Read timeout"))
            = .ok d ∧
        d.decision = .REJECT ∧ d.reasons = ["Visual analysis unavailable"] ∧
        d.confidence = 0.7 ∧ d.analysis_method = "policy_visual" :=
  ⟨rfl, C2_error_analysis_rejected ctxEx emptyTicket
    "Bedrock invoke exception: Read timeout" rfl⟩

/-- C10: `_visual_policy_decision` never raises: its final fall-through
branch — whose `tet=tic` keyword argument would raise a `NameError` — is
unreachable, because it requires `needs_info_reasons = []` together with
`appropriate = false`, and inappropriate content already returned REJECT
in the first branch. -/
theorem C10_no_exception (ctx : Ctx) (t : Ticket) (v : Analysis)
    (prior : List String) :
    ∃ d, visual_policy_decision ctx t v prior = .ok d := by
  unfold visual_policy_decision
  dsimp only
  repeat' split
  all_goals first | exact ⟨_, rfl⟩ | simp_all

/-- C7: an analysis whose content is marked inappropriate is always
REJECTED; with no prior URL reasons and an in-range model confidence, the
reasons are the concerns (at most five, blanks dropped) or the generic
inappropriate-content reason, and the confidence is max(0.7, model
confidence). -/
theorem C7_inappropriate_rejects (ctx : Ctx) (t : Ticket) (v : Analysis)
    (prior : List String)
    (happ : v.content_appropriateness.appropriate = false)
    (hc0 : 0 ≤ v.overall_compliance.confidence)
    (hc1 : v.overall_compliance.confidence ≤ 1) :
    ∃ d, visual_policy_decision ctx t v prior = .ok d ∧
      d.decision = .REJECT ∧
      (prior = [] →
        d.reasons = (if v.content_appropriateness.concerns = [] then
            ["Inappropriate or unprofessional content detected"]
          else trim_to_fit (v.content_appropriateness.concerns.take 5) 5) ∧
        d.confidence = max 0.7 v.overall_compliance.confidence) := by
  have hconf : min 1 (max 0 (max 0.7 v.overall_compliance.confidence))
      = max 0.7 v.overall_compliance.confidence :=
    clamp01_eq (le_trans (by norm_num) (le_max_left _ _))
      (max_le (by norm_num) hc1)
  unfold visual_policy_decision
  dsimp only
  rw [happ]
  rw [if_pos (by simp)]
  split
  · next hbad =>
    refine ⟨_, rfl, rfl, fun hp => ?_⟩
    subst hp
    refine ⟨?_, hconf⟩
    have h2 : List.take 5 (([] : List String) ++
        pySliceTo v.content_appropriateness.concerns
          ((5 : Int) - ((([] : List String).length : Int)))) =
        v.content_appropriateness.concerns.take 5 := by
      show List.take 5 (v.content_appropriateness.concerns.take 5) = _
      rw [List.take_take]
      simp
    simp only [rejectHelper]
    rw [h2]
  · next hbad =>
    push_neg at hbad
    refine ⟨_, rfl, rfl, fun hp => ?_⟩
    subst hp
    refine ⟨?_, hconf⟩
    rw [if_pos hbad]
    rfl

theorem C7_witness :
    ((create_error_analysis "x").content_appropriateness.appropriate = false ∧
        (0 : ℚ) ≤ (create_error_analysis "x").overall_compliance.confidence ∧
        (create_error_analysis "x").overall_compliance.confidence ≤ 1) ∧
      ∃ d, visual_policy_decision ctxEx emptyTicket (create_error_analysis "x") []
            = .ok d ∧
        d.decision = .REJECT ∧
        (([] : List String) = [] →
          d.reasons = (if (create_error_analysis "x").content_appropriateness.concerns = [] then
              ["Inappropriate or unprofessional content detected"]
            else trim_to_fit ((create_error_analysis "x").content_appropriateness.concerns.take 5) 5) ∧
          d.confidence = max 0.7 (create_error_analysis "x").overall_compliance.confidence) :=
  ⟨⟨rfl, by norm_num [create_error_analysis], by norm_num [create_error_analysis]⟩,
   C7_inappropriate_rejects ctxEx emptyTicket (create_error_analysis "x") []
     rfl (by norm_num [create_error_analysis]) (by norm_num [create_error_analysis])⟩

/-- C6: the Fallback Rule Engine never APPROVEs: it REJECTs at confidence
0.9 exactly when some accumulated finding reports a non-approved domain,
and otherwise returns NEEDS_INFO at confidence at least 0.6 with the
accumulated findings (first five) as reasons, defaulting to the
manual-review reason when no finding exists. -/
theorem C6_fallback_never_approves (ts : String) (t : Ticket) :
    (analyze_banner_fallback ts t).decision ≠ .APPROVE ∧
      (fallbackHit t = true →
        (analyze_banner_fallback ts t).decision = .REJECT ∧
        (analyze_banner_fallback ts t).confidence = 0.9 ∧
        (analyze_banner_fallback ts t).reasons = (fallbackFindings t).take 5) ∧
      (fallbackHit t = false →
        (analyze_banner_fallback ts t).decision = .NEEDS_INFO ∧
        (0.6 : ℚ) ≤ (analyze_banner_fallback ts t).confidence ∧
        (analyze_banner_fallback ts t).reasons =
          (if fallbackFindings t = [] then
            ["Visual analysis unavailable — requires manual review"]
          else fallbackFindings t).take 5) := by
  unfold analyze_banner_fallback
  dsimp only
  by_cases hhit : fallbackHit t = true
  · rw [hhit]
    exact ⟨by simp, fun _ => ⟨rfl, rfl, rfl⟩, fun hfalse => absurd hfalse (by simp)⟩
  · have hfit : fallbackHit t = false := by simpa using hhit
    rw [hfit]
    refine ⟨by simp, fun htrue => absurd htrue (by simp), fun _ => ⟨rfl, ?_, rfl⟩⟩
    show (0.6 : ℚ) ≤ max 0.55 0.6
    exact le_max_right _ _

theorem C6_witness :
    (fallbackHit emptyTicket = false ∧
        (analyze_banner_fallback "ts" emptyTicket).decision ≠ .APPROVE) ∧
      ((analyze_banner_fallback "ts" emptyTicket).decision = .NEEDS_INFO ∧
        (0.6 : ℚ) ≤ (analyze_banner_fallback "ts" emptyTicket).confidence ∧
        (analyze_banner_fallback "ts" emptyTicket).reasons =
          (if fallbackFindings emptyTicket = [] then
            ["Visual analysis unavailable — requires manual review"]
          else fallbackFindings emptyTicket).take 5) :=
  ⟨⟨rfl, (C6_fallback_never_approves "ts" emptyTicket).1⟩,
   (C6_fallback_never_approves "ts" emptyTicket).2.2 rfl⟩

/-- C5 counterexample: the host `www.logicart.com` — a strict subdomain of
the approved `logicart.com` — is accepted by the handler validator (no
reject-class finding; it only flags a possible redirect because `t.co`
happens to be a substring of the host) but flagged as non-approved by the
Fallback Rule Engine URL check, so the two classifications differ. -/
theorem C5_counterexample :
    (validate_urls [wwwUrl]).reject_reasons = [] ∧
      check_urls tWww =
        ["Target URL \x27https://www.logicart.com/x\x27 uses non-approved domain (policy: approved LogicCart properties only)"] :=
  ⟨rfl, rfl⟩

/-- C5 amended: the fallback URL check is strictly more restrictive, not
equivalent: every URL the main validator classifies as reject-class is
also flagged by the fallback check (an exact-allowlist host is in
particular exact-or-subdomain approved), but strict subdomains of approved
domains are flagged by the fallback engine alone. -/
theorem C5_fallback_stricter (u : Url)
    (hrej : (validateUrlStep u).reject_reasons ≠ []) :
    fallbackUrlIssue u ≠ [] := by
  unfold validateUrlStep at hrej
  unfold fallbackUrlIssue
  split at hrej
  · exact absurd rfl hrej
  · split at hrej
    · exact absurd rfl hrej
    · next netloc heq =>
      dsimp only at hrej
      split at hrej
      · next happ =>
        have hfb : ¬ fallbackHostApproved (pyLower netloc) = true := by
          intro htrue
          apply happ
          unfold fallbackHostApproved at htrue
          unfold handlerHostApproved
          rw [htrue]
          simp
        rw [if_pos hfb]
        simp
      · split at hrej <;> exact absurd rfl hrej

theorem C5_witness :
    (validateUrlStep evilUrl).reject_reasons ≠ [] ∧ fallbackUrlIssue evilUrl ≠ [] :=
  ⟨by decide, C5_fallback_stricter evilUrl (by decide)⟩

theorem reasonsOK_singleton (s : String) (h : s ≠ "") : reasonsOK [s] :=
  ⟨by simp, fun x hx => by rw [List.mem_singleton.mp hx]; exact h⟩

theorem mem_ite_singleton {c : Prop} [Decidable c] {s lit : String}
    (h : s ∈ (if c then [lit] else [])) : s = lit := by
  split at h
  · simpa using h
  · cases h

theorem check_urls_ne_empty (t : Ticket) : ∀ s ∈ check_urls t, s ≠ "" := by
  intro s hs
  unfold check_urls at hs
  rw [List.mem_flatMap] at hs
  obtain ⟨u, _, hu⟩ := hs
  unfold fallbackUrlIssue at hu
  split at hu
  · have := List.mem_singleton.mp hu
    subst this
    exact append_ne_empty_left _ _ (append_ne_empty_left _ _ (by decide))
  · split at hu
    · have := List.mem_singleton.mp hu
      subst this
      exact append_ne_empty_left _ _ (append_ne_empty_left _ _ (by decide))
    · cases hu

theorem check_misleading_claims_ne_empty (t : Ticket) :
    ∀ s ∈ check_misleading_claims t, s ≠ "" := by
  intro s hs
  unfold check_misleading_claims at hs
  dsimp only at hs
  split at hs
  · cases hs
  · rcases List.mem_append.mp hs with h12 | h3
    · rcases List.mem_append.mp h12 with h1 | h2
      · rw [mem_ite_singleton h1]
        decide
      · rw [mem_ite_singleton h2]
        decide
    · rw [mem_ite_singleton h3]
      decide

theorem fallback_findings_ne_empty (t : Ticket) :
    ∀ s ∈ fallbackFindings t, s ≠ "" := by
  intro s hs
  rcases List.mem_append.mp hs with h | h
  · exact check_urls_ne_empty t s h
  · exact check_misleading_claims_ne_empty t s h

theorem analyze_banner_fallback_reasonsOK (ts : String) (t : Ticket) :
    reasonsOK (analyze_banner_fallback ts t).reasons := by
  unfold analyze_banner_fallback
  dsimp only
  apply reasonsOK_take5
  intro s hs
  split at hs
  · exact fallback_findings_ne_empty t s hs
  · split at hs
    · rw [List.mem_singleton.mp hs]
      decide
    · exact fallback_findings_ne_empty t s hs

theorem vpd_reasonsOK (ctx : Ctx) (t : Ticket) (v : Analysis)
    (prior : List String) (d : Decision)
    (hd : visual_policy_decision ctx t v prior = .ok d) :
    reasonsOK d.reasons := by
  unfold visual_policy_decision at hd
  dsimp only at hd
  repeat' split at hd
  all_goals
    first
    | (injection hd with hd
       subst hd
       exact reasonsOK_trim _)
    | simp at hd

theorem process_banner_reasonsOK (ctx : Ctx) (t : Ticket)
    (vision : Option Analysis) (d : Decision)
    (h : process_banner ctx t vision = .ok d) : reasonsOK d.reasons := by
  unfold process_banner at h
  dsimp only at h
  split at h
  · injection h with h
    subst h
    exact reasonsOK_trim _
  · split at h
    · injection h with h
      subst h
      exact reasonsOK_trim _
    · exact vpd_reasonsOK _ _ _ _ _ h

/-- The reasons list of each of the four result shapes of
`ErrorHandler.handle_error`. -/
def handleErrorReasons : HandleErrorResult → List String
  | .bannerFallback r _ => r.reasons
  | .featureInfo r _ => r.reasons
  | .snsFailure r => r.reasons
  | .manualReview m => m.reasons

theorem handle_error_reasonsOK (ts : String) (et : ErrorType) (msg : String)
    (t : Ticket) : reasonsOK (handleErrorReasons (handle_error ts et msg t)) := by
  unfold handle_error
  dsimp only
  repeat' split
  all_goals
    first
    | exact analyze_banner_fallback_reasonsOK ts t
    | exact reasonsOK_singleton
        "Requires user stories, visual mockups (Figma), technical specs, and success metrics"
        (by decide)
    | exact reasonsOK_singleton "Decision completed but notification failed" (by decide)
    | exact reasonsOK_singleton "System error: manual review required" (by decide)

/-- C9: every decision path — banner processing (URL rejection, missing
image, visual interpretation), feature guidance, the fallback rule
engine, feature needs-info generation, and every error/manual-review
route — yields a reasons list of length at most five with no empty
strings. -/
theorem C9_reasons_invariant :
    (∀ ctx t vision d, process_banner ctx t vision = .ok d → reasonsOK d.reasons) ∧
      (∀ t, reasonsOK (process_feature t).reasons) ∧
      (∀ ts t, reasonsOK (analyze_banner_fallback ts t).reasons) ∧
      (∀ ts t, reasonsOK (generate_feature_needs_info ts t).reasons) ∧
      (∀ ts et msg t, reasonsOK (handleErrorReasons (handle_error ts et msg t))) :=
  ⟨process_banner_reasonsOK,
   fun _ => reasonsOK_singleton
     "New Feature requests require additional specification" (by decide),
   analyze_banner_fallback_reasonsOK,
   fun _ _ => reasonsOK_singleton
     "Requires user stories, visual mockups (Figma), technical specs, and success metrics"
     (by decide),
   handle_error_reasonsOK⟩

theorem C9_witness :
    process_banner ctxEx tEvil none =
        .ok (rejectHelper ctxEx ["Non-approved URL domain: https://evil.com/x"]
              0.9 "policy_url_check" none) ∧
      reasonsOK (rejectHelper ctxEx ["Non-approved URL domain: https://evil.com/x"]
              0.9 "policy_url_check" none).reasons :=
  ⟨rfl, C9_reasons_invariant.1 ctxEx tEvil none _ rfl⟩

/-- A parsed model output whose visual-quality score is the out-of-range
number 5. -/
def badKvs : List (String × Jv) :=
  [("visual_quality", .obj [("score", .num 5)])]

/-- C3 counterexample: `_validate_analysis_structure` does not clamp
numeric scores: a parsed score of 5 is passed through unchanged, and
5 is not in [0, 1]. -/
theorem C3_counterexample :
    (validate_analysis_structure badKvs).map NormAnalysis.vq_score
        = some (Jv.num 5) ∧
      ¬ ((5 : ℚ) ≤ 1) :=
  ⟨rfl, by norm_num⟩

theorem truthy_default_ne_null (v : Jv) :
    (if v.truthy = true then v else Jv.arr []) ≠ Jv.null := by
  split
  · next ht =>
    intro he
    subst he
    simp [Jv.truthy] at ht
  · exact fun h => Jv.noConfusion h

/-- C3 amended: the Response Normalizer keeps the §3 shape guarantees for
list and numeric fields — top-level signal fields are defaulted to empty
lists when falsy, `issues`/`concerns` are always lists, and scores are
defaulted to 0.5 when absent or non-numeric — but numeric out-of-range
scores pass through unclamped; the free-text fallback record always has
its scores (0.4 and 0.3) inside [0, 1]. -/
theorem C3_normalizer_invariants :
    (∀ kvs n, validate_analysis_structure kvs = some n →
        n.colors_detected ≠ Jv.null ∧ n.brand_elements ≠ Jv.null ∧
        n.text_content ≠ Jv.null ∧
        n.vq_issues.isList = true ∧ n.ca_concerns.isList = true ∧
        n.vq_score.isNumberLike = true ∧ n.oc_confidence.isNumberLike = true) ∧
      (∀ text,
        0 ≤ (create_fallback_analysis text).visual_quality.score ∧
        (create_fallback_analysis text).visual_quality.score ≤ 1 ∧
        0 ≤ (create_fallback_analysis text).overall_compliance.confidence ∧
        (create_fallback_analysis text).overall_compliance.confidence ≤ 1) := by
  constructor
  · intro kvs n h
    unfold validate_analysis_structure at h
    split at h
    · injection h with h
      subst h
      refine ⟨truthy_default_ne_null _, truthy_default_ne_null _,
        truthy_default_ne_null _, ?_, ?_, ?_, ?_⟩
      · dsimp only
        split
        · rfl
        · next hcond => simp at hcond; exact hcond.2
      · dsimp only
        split
        · rfl
        · next hcond => simpa using hcond
      · dsimp only
        split
        · rfl
        · next hcond => simp at hcond; exact hcond.2
      · dsimp only
        split
        · rfl
        · next hcond => simpa using hcond
    · cases h
  · intro text
    refine ⟨?_, ?_, ?_, ?_⟩ <;> norm_num [create_fallback_analysis]

/-- The normalized record that `_validate_analysis_structure` produces
for `badKvs`. -/
def normEx : NormAnalysis :=
  { colors_detected := .arr [], logo_present := false, brand_elements := .arr [],
    text_content := .arr [], vq_score := .num 5, vq_issues := .arr [],
    acc_contrast_adequate := false, acc_text_readable := false,
    ca_appropriate := true, ca_concerns := .arr [],
    oc_compliant := false, oc_confidence := .num 0.5, oc_summary := .str "" }

theorem C3_witness :
    validate_analysis_structure badKvs = some normEx ∧
      (normEx.colors_detected ≠ Jv.null ∧ normEx.brand_elements ≠ Jv.null ∧
        normEx.text_content ≠ Jv.null ∧
        normEx.vq_issues.isList = true ∧ normEx.ca_concerns.isList = true ∧
        normEx.vq_score.isNumberLike = true ∧
        normEx.oc_confidence.isNumberLike = true) :=
  ⟨rfl, C3_normalizer_invariants.1 badKvs normEx rfl⟩

theorem perm_any {l₁ l₂ : List α} (h : l₁.Perm l₂) (p : α → Bool) :
    l₁.any p = l₂.any p := by
  cases ha : l₁.any p <;> cases hb : l₂.any p <;> try rfl
  · rw [List.any_eq_true] at hb
    obtain ⟨x, hx, hpx⟩ := hb
    rw [List.any_eq_false] at ha
    exact absurd hpx (by simpa using ha x (h.mem_iff.mpr hx))
  · rw [List.any_eq_true] at ha
    obtain ⟨x, hx, hpx⟩ := ha
    rw [List.any_eq_false] at hb
    exact absurd hpx (by simpa using hb x (h.mem_iff.mp hx))

theorem perm_all {l₁ l₂ : List α} (h : l₁.Perm l₂) (p : α → Bool) :
    l₁.all p = l₂.all p := by
  have := perm_any h (fun a => !p a)
  cases ha : l₁.all p <;> cases hb : l₂.all p <;> try rfl
  · rw [List.all_eq_false] at ha
    rw [List.all_eq_true] at hb
    obtain ⟨x, hx, hpx⟩ := ha
    exact absurd (hb x (h.mem_iff.mp hx)) hpx
  · rw [List.all_eq_false] at hb
    rw [List.all_eq_true] at ha
    obtain ⟨x, hx, hpx⟩ := hb
    exact absurd (ha x (h.mem_iff.mpr hx)) hpx

/-- Permuted inputs give the same Python `sorted(set(xs))`. -/
theorem sortedSet_perm_eq {l₁ l₂ : List String} (h : l₁.Perm l₂) :
    sortedSet l₁ = sortedSet l₂ := by
  have hp : (sortedSet l₁).Perm (sortedSet l₂) :=
    ((List.perm_insertionSort _ _).trans h.dedup).trans
      (List.perm_insertionSort _ _).symm
  exact List.eq_of_perm_of_sorted hp (List.sorted_insertionSort _ _)
    (List.sorted_insertionSort _ _)

/-- The guarded arithmetic mean of `_combine_analyses` is invariant under
permutation of the score list. -/
theorem perm_avg {l₁ l₂ : List ℚ} (h : l₁.Perm l₂) :
    (if l₁ ≠ [] then l₁.sum / (l₁.length : ℚ) else 0)
      = (if l₂ ≠ [] then l₂.sum / (l₂.length : ℚ) else 0) := by
  by_cases hnil : l₁ = []
  · subst hnil
    rw [h.symm.eq_nil]
  · have hnil2 : l₂ ≠ [] := fun he => hnil ((he ▸ h).eq_nil)
    rw [if_pos hnil, if_pos hnil2, h.sum_eq, h.length_eq]

/-- C8 amended: every aggregate field of the combined record — the sorted
signal unions, the logo OR, the appropriateness AND, both averaged scores,
the derived accessibility flags, the compliant flag and the summary — is
invariant under permutation of the analysis list; only the diagnostic
`individual_analyses` field preserves the input order. -/
theorem C8_combine_core_perm (l₁ l₂ : List Analysis) (h : l₁.Perm l₂) :
    combinedCore (combineMulti l₁) = combinedCore (combineMulti l₂) := by
  unfold combineMulti combinedCore
  dsimp only
  have hfilter : (l₁.filter (fun a => !a.error)).Perm
      (l₂.filter (fun a => !a.error)) :=
    h.filter _
  have hcolors := sortedSet_perm_eq (hfilter.flatMap_right Analysis.colors_detected)
  have hbrands := sortedSet_perm_eq (hfilter.flatMap_right Analysis.brand_elements)
  have htexts := sortedSet_perm_eq (hfilter.flatMap_right Analysis.text_content)
  have hconcerns := sortedSet_perm_eq
    (hfilter.flatMap_right (fun a => a.content_appropriateness.concerns))
  have hlogo := perm_any hfilter Analysis.logo_present
  have happrop := perm_all hfilter (fun a => a.content_appropriateness.appropriate)
  have hvq := perm_avg (hfilter.map (fun a => a.visual_quality.score))
  have hoc := perm_avg (hfilter.map (fun a => a.overall_compliance.confidence))
  have hlen := h.length_eq
  rw [hcolors, hbrands, htexts, hconcerns, hlogo, happrop, hvq, hoc, hlen]

/-- Two otherwise-identical analyses with different detected colors. -/
def anA : Analysis :=
  { colors_detected := ["#111111"], logo_present := false, brand_elements := [],
    text_content := [], visual_quality := ⟨1, []⟩,
    accessibility := ⟨false, false⟩, content_appropriateness := ⟨true, []⟩,
    overall_compliance := ⟨false, 1, "a"⟩, error := false }

def anB : Analysis := { anA with colors_detected := ["#222222"] }

/-- Observation of the per-image records embedded in a combine result. -/
def individualsOf : CombineResult → List Analysis
  | .plain a => [a]
  | .multi c => c.individual_analyses

/-- C8 counterexample: swapping two distinct analyses changes the combined
record, because `_combine_analyses` embeds the input list (in input order)
under `individual_analyses`; the full record is therefore not
permutation-invariant as claimed. -/
theorem C8_counterexample :
    combine_analyses [anA, anB] ≠ combine_analyses [anB, anA] := by
  intro hcon
  have h2 : [anA, anB] = [anB, anA] := congrArg individualsOf hcon
  injection h2 with h3 _
  have h4 := congrArg Analysis.colors_detected h3
  exact absurd h4 (by decide)

theorem C8_witness :
    [anA, anB].Perm [anB, anA] ∧
      combinedCore (combineMulti [anA, anB])
        = combinedCore (combineMulti [anB, anA]) :=
  ⟨List.Perm.swap anB anA [],
   C8_combine_core_perm [anA, anB] [anB, anA] (List.Perm.swap anB anA [])⟩

end LogicCart
